import Mathlib

/-!
Verification of the openclaw-maasv plugin (TypeScript sources) against its
natural-language specification.

The development shallowly embeds the plugin's pure logic:

* `src/types.ts`           — configuration and wire data shapes;
* `src/unnamed/part_001`   — plugin registration, default configuration,
  auto-recall (`before_agent_start`) and auto-capture (`agent_end`) hooks,
  and the message-extraction helpers;
* `src/client.ts`          — `MaasvClient` (base-URL normalisation, headers,
  one request descriptor per operation);
* `src/tools/*.ts`, `src/unnamed/part_002`, `src/unnamed/part_003`
  — the `memory_store`, `memory_search`, `memory_forget`, `memory_graph`
  and `memory_wisdom` tool `execute` functions.

Async client calls are embedded by passing the outcome of the (single)
underlying HTTP call as an explicit `Except String _` argument; a thrown /
rejected JavaScript exception is `Except.error`, and an `execute` that does
not catch it propagates the same `Except.error`.  Tools that can issue a
request additionally return the list of issued request descriptors, so
"no HTTP request was issued" is expressible.  JavaScript string truthiness
(`!s` is true for `undefined`/`null`/`""`) is embedded by `isFalsyStr` on
`Option String`.  JavaScript numbers that the claims treat only as opaque
scores/confidences are embedded as `ℚ`; decimal rendering such as
`toFixed(3)` is abstracted by `toString`.

The dedup-on-store and temporal-graph-versioning algorithms live in the
external maasv service, whose code is not part of this repository; they are
modelled from the specification's contracts (§4.2, §4.3) and are clearly
marked `Modelled from the spec`.
-/

namespace OpenclawMaasv

/-! ## Configuration (src/types.ts, src/unnamed/part_001) -/

/-- `PluginConfig` from `src/types.ts`. -/
structure PluginConfig where
  serverUrl : String
  apiKey : Option String := none
  autoRecall : Bool
  autoCapture : Bool
  maxRecallResults : Nat
  maxRecallTokens : Nat
  enableGraph : Bool
  enableWisdom : Bool
deriving DecidableEq

/-- A partial configuration as supplied by the host (`api.pluginConfig`):
every key may be absent. -/
structure RawPluginConfig where
  serverUrl : Option String := none
  apiKey : Option String := none
  autoRecall : Option Bool := none
  autoCapture : Option Bool := none
  maxRecallResults : Option Nat := none
  maxRecallTokens : Option Nat := none
  enableGraph : Option Bool := none
  enableWisdom : Option Bool := none
deriving DecidableEq

/-- `DEFAULT_CONFIG` from `src/unnamed/part_001` lines 25-33. -/
def DEFAULT_CONFIG : PluginConfig :=
  { serverUrl := "http://127.0.0.1:18790"
    autoRecall := true
    autoCapture := true
    maxRecallResults := 5
    maxRecallTokens := 2000
    enableGraph := true
    enableWisdom := false }

/-- `register`'s configuration resolution (`src/unnamed/part_001` lines 43-44):
`const rawConfig = api.pluginConfig ?? {}; const config = {...DEFAULT_CONFIG, ...rawConfig}`.
A key present in `rawConfig` overrides the default; an absent key keeps it. -/
def resolveConfig (pluginConfig : Option RawPluginConfig) : PluginConfig :=
  let rawConfig := pluginConfig.getD {}
  { serverUrl := rawConfig.serverUrl.getD DEFAULT_CONFIG.serverUrl
    apiKey := rawConfig.apiKey.orElse fun _ => DEFAULT_CONFIG.apiKey
    autoRecall := rawConfig.autoRecall.getD DEFAULT_CONFIG.autoRecall
    autoCapture := rawConfig.autoCapture.getD DEFAULT_CONFIG.autoCapture
    maxRecallResults := rawConfig.maxRecallResults.getD DEFAULT_CONFIG.maxRecallResults
    maxRecallTokens := rawConfig.maxRecallTokens.getD DEFAULT_CONFIG.maxRecallTokens
    enableGraph := rawConfig.enableGraph.getD DEFAULT_CONFIG.enableGraph
    enableWisdom := rawConfig.enableWisdom.getD DEFAULT_CONFIG.enableWisdom }

/-! ## JavaScript truthiness helpers -/

/-- JavaScript `!x` on an optional string: true when the value is
`undefined`/`null` or the empty string. -/
def isFalsyStr : Option String → Bool
  | none => true
  | some s => s.isEmpty

/-! ## Event model and extraction helpers (src/unnamed/part_001 lines 226-259) -/

/-- A message `content` field: either a string, or any other JSON value
(represented by its `JSON.stringify` serialisation, which is the only way
the plugin ever consumes it). -/
inductive MsgContent where
  | str (s : String)
  | json (serialized : String)
deriving DecidableEq

/-- `typeof content === "string" ? content : JSON.stringify(content)`. -/
def MsgContent.asText : MsgContent → String
  | .str s => s
  | .json j => j

/-- One element of `event.context.messages`. -/
structure EventMsg where
  role : String
  content : MsgContent
deriving DecidableEq

/-- The parts of the dynamic agent event the plugin reads:
`event.userMessage` when it is a string, and `event.context.messages`. -/
structure AgentEvent where
  userMessage : Option String := none
  messages : Option (List EventMsg) := none
deriving DecidableEq

/-- `extractUserMessage` (src/unnamed/part_001 lines 226-240): prefer
`event.userMessage`; otherwise scan `event.context.messages` backwards for
the last message with role `"user"`. -/
def extractUserMessage (event : AgentEvent) : Option String :=
  match event.userMessage with
  | some s => some s
  | none =>
    match event.messages with
    | none => none
    | some messages =>
      match messages.reverse.find? (fun m => m.role == "user") with
      | some m => some m.content.asText
      | none => none

/-- `extractConversation` (src/unnamed/part_001 lines 242-259): keep user and
assistant messages as `"role: content"` lines joined by blank lines; `null`
when there is no message list or no such message. -/
def extractConversation (event : AgentEvent) : Option String :=
  match event.messages with
  | none => none
  | some messages =>
    let parts := (messages.filter fun m => m.role == "user" || m.role == "assistant").map
      fun m => m.role ++ ": " ++ m.content.asText
    if parts.length > 0 then some (String.intercalate "\n\n" parts) else none

/-! ## Auto-recall truncation and hooks (src/unnamed/part_001 lines 87-136) -/

/-- The literal truncation marker appended by the auto-recall hook. -/
def truncMarker : String := "\n[truncated]"

/-- The truncation step of the `before_agent_start` handler
(src/unnamed/part_001 lines 105-110): `maxChars = maxRecallTokens * 4`;
if the context exceeds it, slice to `maxChars` and append the marker. -/
def truncateRecall (maxRecallTokens : Nat) (context : String) : String :=
  let maxChars := maxRecallTokens * 4
  if context.length > maxChars then context.take maxChars ++ truncMarker else context

/-- The `before_agent_start` handler (src/unnamed/part_001 lines 87-118).
`ctxResult` is the outcome of the single `client.getContext` call; the
result is the optional `prependContext` value paired with the list of
`logger.warn` messages. The `try`/`catch` around the client call is embedded
by the `Except.error` branch, which logs the warning and returns nothing. -/
def beforeAgentStart (config : PluginConfig) (event : AgentEvent)
    (ctxResult : Except String String) : Option String × List String :=
  if !config.autoRecall then (none, [])
  else
    let userMessage := extractUserMessage event
    if isFalsyStr userMessage then (none, [])
    else
      match ctxResult with
      | .error e => (none, ["Auto-recall failed: " ++ e])
      | .ok context =>
        if context.length > 0 then
          (some ("<long_term_memory>\n" ++ truncateRecall config.maxRecallTokens context
              ++ "\n</long_term_memory>"), [])
        else (none, [])

/-- The `agent_end` handler (src/unnamed/part_001 lines 122-136).
`extractResult` is the outcome of the single `client.extract` call; the
result pairs the list of `logger.warn` messages with the list of
conversation texts actually sent to `client.extract`. The handler itself
returns no value on any path. -/
def agentEnd (config : PluginConfig) (event : AgentEvent)
    (extractResult : Except String Unit) : List String × List String :=
  if !config.autoCapture then ([], [])
  else
    match extractConversation event with
    | none => ([], [])
    | some conversationText =>
      if conversationText.length < 50 then ([], [])
      else
        match extractResult with
        | .ok _ => ([], [conversationText])
        | .error e => (["Auto-capture failed: " ++ e], [conversationText])

/-! ## HTTP client (src/client.ts) -/

/-- `config.serverUrl.replace(/\/+$/, "")` (src/client.ts line 29): strip the
maximal run of trailing slashes. -/
def stripTrailingSlashes (s : String) : String :=
  ⟨(s.data.reverse.dropWhile fun c => c == '/').reverse⟩

/-- The headers set up by the `MaasvClient` constructor
(src/client.ts lines 30-33): always `Content-Type`, plus `X-Maasv-Key`
when `config.apiKey` is truthy. -/
def clientHeaders (config : PluginConfig) : List (String × String) :=
  [("Content-Type", "application/json")] ++
    (match config.apiKey with
     | some k => if !k.isEmpty then [("X-Maasv-Key", k)] else []
     | none => [])

/-- JavaScript truthiness of `config.apiKey` as used by the constructor. -/
def hasApiKey (config : PluginConfig) : Bool :=
  match config.apiKey with
  | some k => !k.isEmpty
  | none => false

/-- `StoreRequest` from `src/types.ts`. -/
structure StoreRequest where
  content : String
  category : String
  subject : Option String := none
  source : Option String := none
  confidence : Option ℚ := none
deriving DecidableEq

/-- `SearchRequest` from `src/types.ts`. -/
structure SearchRequest where
  query : String
  limit : Option Nat := none
  category : Option String := none
  subject : Option String := none
deriving DecidableEq

/-- `ContextRequest` from `src/types.ts`. -/
structure ContextRequest where
  query : Option String := none
  core_limit : Option Nat := none
  relevant_limit : Option Nat := none
  use_semantic : Option Bool := none
deriving DecidableEq

/-- One public `MaasvClient` operation (src/client.ts lines 74-211), with the
arguments that determine its request. Each operation issues exactly one
HTTP round trip via `request`. -/
inductive ClientOp where
  | storeMemory (req : StoreRequest)
  | searchMemories (req : SearchRequest)
  | getContext (req : ContextRequest)
  | getMemory (memoryId : String)
  | deleteMemory (memoryId : String)
  | supersedeMemory (oldId : String) (newContent : String)
  | extract (text : String) (topic : Option String)
  | findOrCreateEntity (name : String) (entityType : String)
  | searchEntities (query : String) (entityType : Option String) (limit : Option Nat)
  | getEntityProfile (entityId : String)
  | addRelationship (subjectId : String) (predicate : String)
      (objectId : Option String) (objectValue : Option String)
  | logReasoning (actionType : String) (reasoning : String)
  | recordOutcome (wisdomId : String) (outcome : String) (details : Option String)
  | addFeedback (wisdomId : String) (score : ℚ) (notes : Option String)
  | searchWisdom (query : String) (limit : Option Nat)
  | health
  | stats
deriving DecidableEq

/-- The request path of each client operation, exactly as written in
src/client.ts. -/
def ClientOp.path : ClientOp → String
  | .storeMemory _ => "/v1/memory/store"
  | .searchMemories _ => "/v1/memory/search"
  | .getContext _ => "/v1/memory/context"
  | .getMemory memoryId => "/v1/memory/" ++ memoryId
  | .deleteMemory memoryId => "/v1/memory/" ++ memoryId
  | .supersedeMemory _ _ => "/v1/memory/supersede"
  | .extract _ _ => "/v1/extract"
  | .findOrCreateEntity _ _ => "/v1/graph/entities"
  | .searchEntities _ _ _ => "/v1/graph/entities/search"
  | .getEntityProfile entityId => "/v1/graph/entities/" ++ entityId
  | .addRelationship _ _ _ _ => "/v1/graph/relationships"
  | .logReasoning _ _ => "/v1/wisdom/log"
  | .recordOutcome wisdomId _ _ => "/v1/wisdom/" ++ wisdomId ++ "/outcome"
  | .addFeedback wisdomId _ _ => "/v1/wisdom/" ++ wisdomId ++ "/feedback"
  | .searchWisdom _ _ => "/v1/wisdom/search"
  | .health => "/v1/health"
  | .stats => "/v1/stats"

/-- The HTTP method of each client operation, as written in src/client.ts. -/
def ClientOp.verb : ClientOp → String
  | .getMemory _ => "GET"
  | .getEntityProfile _ => "GET"
  | .health => "GET"
  | .stats => "GET"
  | .deleteMemory _ => "DELETE"
  | _ => "POST"

/-- `const url = this.baseUrl + path` (src/client.ts line 43), with
`baseUrl` the trailing-slash-stripped `serverUrl`. -/
def requestUrl (config : PluginConfig) (op : ClientOp) : String :=
  stripTrailingSlashes config.serverUrl ++ op.path

/-! ## Tool responses and simple tools (src/tools) -/

/-- A tool response: a list of `{type: "text", text}` blocks, kept as the
text strings (every block the plugin builds is a text block). -/
structure ToolResponse where
  content : List String
deriving DecidableEq

/-- `createMemoryForget(...).execute` (src/tools/memory-forget.ts lines 15-31).
The `try`/`catch` is embedded by mapping the client failure to the
user-visible message: the result is `Except.ok` on both paths. -/
def memoryForgetExecute (deleteResult : Except String Unit) (id : String) :
    Except String ToolResponse :=
  match deleteResult with
  | .ok _ => .ok ⟨["Deleted memory: " ++ id]⟩
  | .error e => .ok ⟨["Failed to delete memory " ++ id ++ ": " ++ e]⟩

/-- Parameters of the `memory_store` tool. -/
structure MemoryStoreParams where
  content : String
  category : String
  subject : Option String := none
  confidence : Option ℚ := none
deriving DecidableEq

/-- The `StoreRequest` that `memory_store` builds
(src/tools/memory-store.ts lines 42-48). -/
def memoryStoreRequest (params : MemoryStoreParams) : StoreRequest :=
  { content := params.content
    category := params.category
    subject := params.subject
    confidence := some (params.confidence.getD 1)
    source := some "openclaw" }

/-- `createMemoryStore(...).execute` (src/tools/memory-store.ts lines 38-58).
There is no `try`/`catch`: a failing `client.storeMemory` call rejects the
returned promise, embedded as `Except.error`. -/
def memoryStoreExecute (storeResult : Except String String)
    (_params : MemoryStoreParams) : Except String ToolResponse :=
  match storeResult with
  | .error e => .error e
  | .ok memoryId => .ok ⟨["Stored memory: " ++ memoryId]⟩

/-- A `ScoredMemory` as consumed by the search tool (src/types.ts). -/
structure ScoredMemory where
  id : String
  content : String
  category : String
  subject : Option String := none
  confidence : ℚ := 1
  imp_score : Option ℚ := none
deriving DecidableEq

/-- The `m.subject ? "[" + m.subject + "] " : ""` fragment shared by the
search tool and the CLI. -/
def subjectTag : Option String → String
  | some s => if s.isEmpty then "" else "[" ++ s ++ "] "
  | none => ""

/-- The `m._imp_score ? " (score: ...)" : ""` fragment
(src/tools/memory-search.ts line 54); a missing or zero (falsy) score
renders nothing. `toFixed(3)` decimal rendering is abstracted by
`toString`. -/
def scoreTag : Option ℚ → String
  | some q => if q == 0 then "" else " (score: " ++ toString q ++ ")"
  | none => ""

/-- One formatted line of `memory_search` output
(src/tools/memory-search.ts lines 51-57). -/
def formatSearchHit (i : Nat) (m : ScoredMemory) : String :=
  toString (i + 1) ++ ". " ++ subjectTag m.subject ++ m.content ++ scoreTag m.imp_score
    ++ "\n   id: " ++ m.id ++ " | category: " ++ m.category
    ++ " | confidence: " ++ toString m.confidence

/-- Parameters of the `memory_search` tool. -/
structure MemorySearchParams where
  query : String
  limit : Option Nat := none
  category : Option String := none
  subject : Option String := none
deriving DecidableEq

/-- `createMemorySearch(...).execute` (src/tools/memory-search.ts lines
39-62). No `try`/`catch`: a client failure propagates as `Except.error`. -/
def memorySearchExecute (searchResult : Except String (List ScoredMemory × Nat))
    (_params : MemorySearchParams) : Except String ToolResponse :=
  match searchResult with
  | .error e => .error e
  | .ok (results, count) =>
    if count = 0 then .ok ⟨["No memories found."]⟩
    else
      let formatted := String.intercalate "\n\n"
        ((List.range results.length).zip results |>.map fun p => formatSearchHit p.1 p.2)
      .ok ⟨["Found " ++ toString count ++ " memories:\n\n" ++ formatted]⟩

/-! ## memory_graph tool (src/unnamed/part_003) -/

/-- An `Entity` as consumed by the graph tool (src/types.ts). -/
structure Entity where
  id : String
  name : String
  entity_type : String
deriving DecidableEq

/-- A relationship as consumed by the profile formatter (src/types.ts). -/
structure RelationshipView where
  object_id : Option String := none
  object_value : Option String := none
  object_name : Option String := none
deriving DecidableEq

/-- `rel.object_name ?? rel.object_value ?? rel.object_id` interpolated into
the template string; `null` is what JavaScript renders when all three are
nullish. -/
def relTarget (r : RelationshipView) : String :=
  match r.object_name with
  | some s => s
  | none =>
    match r.object_value with
    | some s => s
    | none =>
      match r.object_id with
      | some s => s
      | none => "null"

/-- An `EntityProfile` as consumed by the graph tool (src/types.ts);
`relationships` is the predicate-keyed record, kept as an association
list in object-key order. -/
structure EntityProfile where
  entity : Entity
  relationships : List (String × List RelationshipView)
deriving DecidableEq

/-- The actions of the `memory_graph` tool. -/
inductive GraphAction where
  | search
  | profile
  | add_relationship
deriving DecidableEq

/-- Parameters of the `memory_graph` tool (src/unnamed/part_003 lines 57-68). -/
structure GraphParams where
  action : GraphAction
  query : Option String := none
  entity_id : Option String := none
  entity_type : Option String := none
  subject_id : Option String := none
  predicate : Option String := none
  object_id : Option String := none
  object_value : Option String := none
deriving DecidableEq

/-- A request descriptor for each client call the graph tool can issue. -/
inductive GraphReq where
  | searchEntities (query : String) (entityType : Option String)
  | getEntityProfile (entityId : String)
  | addRelationship (subjectId : String) (predicate : String)
      (objectId : Option String) (objectValue : Option String)
deriving DecidableEq

/-- The client calls available to the graph tool, with their outcomes. -/
structure GraphClient where
  searchEntities : String → Option String → Except String (List Entity × Nat)
  getEntityProfile : String → Except String EntityProfile
  addRelationship : String → String → Option String → Option String → Except String String

/-- `createMemoryGraph(...).execute` (src/unnamed/part_003 lines 57-151),
returning the tool outcome (`Except.error` = uncaught rejection) together
with the list of client requests issued. -/
def memoryGraphExecute (client : GraphClient) (params : GraphParams) :
    Except String ToolResponse × List GraphReq :=
  match params.action with
  | .search =>
    if isFalsyStr params.query then
      (.ok ⟨["Error: 'query' required for search action"]⟩, [])
    else
      let q := params.query.getD ""
      match client.searchEntities q params.entity_type with
      | .error e => (.error e, [.searchEntities q params.entity_type])
      | .ok (results, count) =>
        if count = 0 then
          (.ok ⟨["No entities found."]⟩, [.searchEntities q params.entity_type])
        else
          let formatted := String.intercalate "\n"
            (results.map fun e => "- " ++ e.name ++ " (" ++ e.entity_type ++ ") — id: " ++ e.id)
          (.ok ⟨["Found " ++ toString count ++ " entities:\n" ++ formatted]⟩,
            [.searchEntities q params.entity_type])
  | .profile =>
    if isFalsyStr params.entity_id then
      (.ok ⟨["Error: 'entity_id' required for profile action"]⟩, [])
    else
      let eid := params.entity_id.getD ""
      match client.getEntityProfile eid with
      | .error e => (.error e, [.getEntityProfile eid])
      | .ok profile =>
        let lines :=
          ["# " ++ profile.entity.name ++ " (" ++ profile.entity.entity_type ++ ")"] ++
            profile.relationships.flatMap fun pr =>
              pr.2.map fun rel => "- " ++ pr.1 ++ ": " ++ relTarget rel
        (.ok ⟨[String.intercalate "\n" lines]⟩, [.getEntityProfile eid])
  | .add_relationship =>
    if isFalsyStr params.subject_id || isFalsyStr params.predicate then
      (.ok ⟨["Error: 'subject_id' and 'predicate' required for add_relationship"]⟩, [])
    else if isFalsyStr params.object_id && isFalsyStr params.object_value then
      (.ok ⟨["Error: either 'object_id' or 'object_value' required"]⟩, [])
    else
      let s := params.subject_id.getD ""
      let p := params.predicate.getD ""
      match client.addRelationship s p params.object_id params.object_value with
      | .error e => (.error e, [.addRelationship s p params.object_id params.object_value])
      | .ok rid =>
        (.ok ⟨["Created relationship: " ++ rid]⟩,
          [.addRelationship s p params.object_id params.object_value])

/-! ## memory_wisdom tool (src/unnamed/part_002) -/

/-- A `WisdomEntry` as consumed by the wisdom search formatter
(src/types.ts). -/
structure WisdomEntry where
  id : String
  action_type : String
  reasoning : String
  outcome : String
  feedback_score : Option ℚ := none
deriving DecidableEq

/-- The actions of the `memory_wisdom` tool. -/
inductive WisdomAction where
  | log
  | outcome
  | feedback
  | search
deriving DecidableEq

/-- Parameters of the `memory_wisdom` tool (src/unnamed/part_002 lines 77-91). -/
structure WisdomParams where
  action : WisdomAction
  action_type : Option String := none
  reasoning : Option String := none
  trigger : Option String := none
  context : Option String := none
  wisdom_id : Option String := none
  outcome : Option String := none
  details : Option String := none
  score : Option ℚ := none
  notes : Option String := none
  query : Option String := none
deriving DecidableEq

/-- A request descriptor for each client call the wisdom tool can issue. -/
inductive WisdomReq where
  | logReasoning (actionType : String) (reasoning : String)
      (trigger : Option String) (context : Option String)
  | recordOutcome (wisdomId : String) (outcome : String) (details : Option String)
  | addFeedback (wisdomId : String) (score : ℚ) (notes : Option String)
  | searchWisdom (query : String)
deriving DecidableEq

/-- The client calls available to the wisdom tool, with their outcomes. -/
structure WisdomClient where
  logReasoning : String → String → Option String → Option String → Except String String
  recordOutcome : String → String → Option String → Except String Unit
  addFeedback : String → ℚ → Option String → Except String Unit
  searchWisdom : String → Except String (List WisdomEntry × Nat)

/-- One formatted line of wisdom search output
(src/unnamed/part_002 lines 180-186): the feedback suffix is shown exactly
when `feedback_score !== null`, and the reasoning is sliced to 200. -/
def formatWisdomHit (w : WisdomEntry) : String :=
  let scoreStr :=
    match w.feedback_score with
    | some q => " (" ++ toString q ++ "/5)"
    | none => ""
  "- [" ++ w.outcome ++ scoreStr ++ "] " ++ w.action_type ++ ": " ++ w.reasoning.take 200

/-- `createMemoryWisdom(...).execute` (src/unnamed/part_002 lines 77-197),
returning the tool outcome (`Except.error` = uncaught rejection) together
with the list of client requests issued. -/
def memoryWisdomExecute (client : WisdomClient) (params : WisdomParams) :
    Except String ToolResponse × List WisdomReq :=
  match params.action with
  | .log =>
    if isFalsyStr params.action_type || isFalsyStr params.reasoning then
      (.ok ⟨["Error: 'action_type' and 'reasoning' required for log action"]⟩, [])
    else
      let at' := params.action_type.getD ""
      let r := params.reasoning.getD ""
      match client.logReasoning at' r params.trigger params.context with
      | .error e => (.error e, [.logReasoning at' r params.trigger params.context])
      | .ok wisdomId =>
        (.ok ⟨["Logged reasoning: " ++ wisdomId]⟩,
          [.logReasoning at' r params.trigger params.context])
  | .outcome =>
    if isFalsyStr params.wisdom_id || isFalsyStr params.outcome then
      (.ok ⟨["Error: 'wisdom_id' and 'outcome' required"]⟩, [])
    else
      let wid := params.wisdom_id.getD ""
      let oc := params.outcome.getD ""
      match client.recordOutcome wid oc params.details with
      | .error e => (.error e, [.recordOutcome wid oc params.details])
      | .ok _ =>
        (.ok ⟨["Recorded outcome for " ++ wid ++ ": " ++ oc]⟩,
          [.recordOutcome wid oc params.details])
  | .feedback =>
    if isFalsyStr params.wisdom_id || params.score.isNone then
      (.ok ⟨["Error: 'wisdom_id' and 'score' required"]⟩, [])
    else
      let wid := params.wisdom_id.getD ""
      let sc := params.score.getD 0
      match client.addFeedback wid sc params.notes with
      | .error e => (.error e, [.addFeedback wid sc params.notes])
      | .ok _ =>
        (.ok ⟨["Added feedback for " ++ wid ++ ": " ++ toString sc ++ "/5"]⟩,
          [.addFeedback wid sc params.notes])
  | .search =>
    if isFalsyStr params.query then
      (.ok ⟨["Error: 'query' required for search action"]⟩, [])
    else
      let q := params.query.getD ""
      match client.searchWisdom q with
      | .error e => (.error e, [.searchWisdom q])
      | .ok (results, count) =>
        if count = 0 then (.ok ⟨["No wisdom entries found."]⟩, [.searchWisdom q])
        else
          let formatted := String.intercalate "\n" (results.map formatWisdomHit)
          (.ok ⟨["Found " ++ toString count ++ " wisdom entries:\n" ++ formatted]⟩,
            [.searchWisdom q])

/-- A graph client whose every call fails with error `e` (a rejecting
maasv-server connection). -/
def failingGraphClient (e : String) : GraphClient :=
  { searchEntities := fun _ _ => .error e
    getEntityProfile := fun _ => .error e
    addRelationship := fun _ _ _ _ => .error e }

/-- A wisdom client whose every call fails with error `e`. -/
def failingWisdomClient (e : String) : WisdomClient :=
  { logReasoning := fun _ _ _ _ => .error e
    recordOutcome := fun _ _ _ => .error e
    addFeedback := fun _ _ _ => .error e
    searchWisdom := fun _ => .error e }

/-- A tool result that is a structured validation error: a single text block
starting with `Error:`, returned normally (not thrown), with no client
request issued. -/
def validationError {Req : Type} (r : Except String ToolResponse × List Req) : Prop :=
  ∃ msg, r.1 = Except.ok ⟨[msg]⟩ ∧ msg.take 6 = "Error:" ∧ r.2 = []

/-! ## Spec-modelled maasv service behaviour

The dedup-on-store and temporal graph versioning algorithms run inside the
external maasv service (spec §1, §4.2, §4.3); their code is not part of this
repository — src/ only contains their HTTP callers (`MaasvClient.storeMemory`,
`MaasvClient.addRelationship`). They are modelled here from the
specification's contracts. -/

/-- A stored memory record with its embedding, as far as the dedup contract
needs it (spec §3, §4.2): id, content, `access_count`, embedding. -/
structure MemRecord (E : Type) where
  id : Nat
  content : String
  access_count : Nat
  embedding : E
deriving DecidableEq

/-- The memory table of the service. -/
structure MemStoreState (E : Type) where
  records : List (MemRecord E)
  nextId : Nat
deriving DecidableEq

/-- Modelled from the spec: the service side of `POST /v1/memory/store`
(spec §4.2 "Deduplication on store", whose implementation lives in the
external maasv service, not in this repository): compute an embedding for
the content; if an existing memory's embedding distance to the new content
is below the fixed near-duplicate threshold, return the existing memory's
ID without creating a new record; otherwise insert a new memory with
`access_count = 0`. -/
def serviceStoreMemory {E : Type} (embed : String → E) (dist : E → E → ℚ)
    (threshold : ℚ) (s : MemStoreState E) (content : String) :
    Nat × MemStoreState E :=
  match s.records.find? (fun r => decide (dist (embed content) r.embedding < threshold)) with
  | some r => (r.id, s)
  | none =>
    (s.nextId,
      { records := s.records ++
          [{ id := s.nextId, content := content, access_count := 0, embedding := embed content }]
        nextId := s.nextId + 1 })

/-- A relationship row of the service's knowledge graph (spec §3): the
object slot (`object_id` or `object_value`) is kept as one value, and a
relationship is currently valid exactly when `valid_to` is unset. -/
structure RelRecord where
  id : Nat
  subject_id : String
  predicate : String
  object : String
  valid_from : Nat
  valid_to : Option Nat
deriving DecidableEq

/-- The relationship table of the service. -/
structure GraphStoreState where
  rels : List RelRecord
  nextId : Nat
deriving DecidableEq

/-- A relationship row is currently valid for `(subj, pred)`. -/
def isValidFor (subj pred : String) (r : RelRecord) : Bool :=
  r.subject_id == subj && r.predicate == pred && r.valid_to.isNone

/-- Modelled from the spec: the service side of `POST /v1/graph/relationships`
(spec §4.3 "Temporal graph versioning", whose implementation lives in the
external maasv service, not in this repository): if a currently-valid
relationship with the same `(subject, predicate)` already exists and the new
object differs, close the old relationship (`valid_to := now`) and open a
new one; if the object is unchanged it is a no-op returning the existing ID;
otherwise just open a new relationship. -/
def serviceAddRelationship (s : GraphStoreState) (subj pred obj : String)
    (now : Nat) : Nat × GraphStoreState :=
  match s.rels.find? (isValidFor subj pred) with
  | some r =>
    if r.object == obj then (r.id, s)
    else
      let closed := s.rels.map fun r2 =>
        if r2.id == r.id then { r2 with valid_to := some now } else r2
      (s.nextId,
        { rels := closed ++ [⟨s.nextId, subj, pred, obj, now, none⟩]
          nextId := s.nextId + 1 })
  | none =>
    (s.nextId,
      { rels := s.rels ++ [⟨s.nextId, subj, pred, obj, now, none⟩]
        nextId := s.nextId + 1 })

/-- The currently valid relationships of `(subj, pred)` — what the `profile`
view shows under that predicate (spec §4.3). -/
def currentlyValid (s : GraphStoreState) (subj pred : String) : List RelRecord :=
  s.rels.filter (isValidFor subj pred)

/-! ## Theorems -/

/-- C1: For every configuration with `maxRecallTokens = N` and every context
string returned by the service, the auto-recall truncation step never emits
a context blob whose length exceeds `4*N` characters except by the literal
length of the truncation marker appended; a context within the budget is
passed through unchanged. -/
theorem claim_C1_recall_truncation_bound (n : Nat) (context : String) :
    (truncateRecall n context).length ≤ 4 * n + truncMarker.length ∧
    (context.length ≤ 4 * n → truncateRecall n context = context) := by
  constructor
  · simp only [truncateRecall]
    split
    · rw [String.length_append]
      have h1 : (context.take (n * 4)).length ≤ 4 * n := by
        rw [String.take_eq]
        show (List.take (n * 4) context.data).length ≤ 4 * n
        rw [List.length_take]
        omega
      exact Nat.add_le_add_right h1 _
    · rename_i h
      omega
  · intro h
    simp only [truncateRecall]
    split
    · rename_i hgt
      omega
    · rfl

/-- Witness for C1 at concrete inputs: a 3-character context fits the budget
of 1 recall token and is passed through; with a budget of 0 tokens, the
emitted blob stays within the marker length. -/
theorem claim_C1_recall_truncation_bound_witness :
    truncateRecall 1 "abc" = "abc" ∧
      (truncateRecall 0 "xyz").length ≤ 4 * 0 + truncMarker.length :=
  ⟨(claim_C1_recall_truncation_bound 1 "abc").2 (by decide),
    (claim_C1_recall_truncation_bound 0 "xyz").1⟩

/-- C8: With no plugin configuration supplied, the effective configuration is
exactly the documented defaults, and every key present in the supplied
configuration overrides the corresponding default. -/
theorem claim_C8_config_defaults_and_overrides :
    resolveConfig none =
      { serverUrl := "http://127.0.0.1:18790"
        apiKey := none
        autoRecall := true
        autoCapture := true
        maxRecallResults := 5
        maxRecallTokens := 2000
        enableGraph := true
        enableWisdom := false } ∧
    ∀ r : RawPluginConfig,
      (∀ v, r.serverUrl = some v → (resolveConfig (some r)).serverUrl = v) ∧
      (∀ v, r.apiKey = some v → (resolveConfig (some r)).apiKey = some v) ∧
      (∀ v, r.autoRecall = some v → (resolveConfig (some r)).autoRecall = v) ∧
      (∀ v, r.autoCapture = some v → (resolveConfig (some r)).autoCapture = v) ∧
      (∀ v, r.maxRecallResults = some v → (resolveConfig (some r)).maxRecallResults = v) ∧
      (∀ v, r.maxRecallTokens = some v → (resolveConfig (some r)).maxRecallTokens = v) ∧
      (∀ v, r.enableGraph = some v → (resolveConfig (some r)).enableGraph = v) ∧
      (∀ v, r.enableWisdom = some v → (resolveConfig (some r)).enableWisdom = v) := by
  refine ⟨rfl, fun r => ?_⟩
  refine ⟨?_, ?_, ?_, ?_, ?_, ?_, ?_, ?_⟩ <;>
    · intro v h
      simp [resolveConfig, h, Option.orElse]

/-- Witness for C8 at a concrete input: a supplied `serverUrl` overrides the
default. -/
theorem claim_C8_config_defaults_and_overrides_witness :
    (resolveConfig (some { serverUrl := some "http://example.test:9/" })).serverUrl =
      "http://example.test:9/" :=
  ((claim_C8_config_defaults_and_overrides.2
    { serverUrl := some "http://example.test:9/" }).1 "http://example.test:9/" rfl)

/-- C2 counterexample: the claim says every tool's `execute` catches a failed
client call and returns a user-visible text error, but `memory_store`'s
`execute` has no `try`/`catch`: at this concrete input the client failure
propagates out of `execute` unchanged instead of becoming a text response. -/
theorem claim_C2_counterexample :
    memoryStoreExecute
      (.error "maasv-server POST /v1/memory/store failed: 500 ")
      { content := "likes coffee", category := "preference" } =
    .error "maasv-server POST /v1/memory/store failed: 500 " := rfl

/-- C2 (amended): only `memory_forget`'s `execute` catches the underlying
client failure and returns a user-visible text message; the `execute`
functions of `memory_store`, `memory_search`, `memory_graph` and
`memory_wisdom` propagate the failure (the rejection escapes `execute`). -/
theorem claim_C2_only_forget_catches :
    (∀ (res : Except String Unit) (id : String),
      ∃ msg, memoryForgetExecute res id = .ok ⟨[msg]⟩) ∧
    (∀ (e : String) (p : MemoryStoreParams), memoryStoreExecute (.error e) p = .error e) ∧
    (∀ (e : String) (p : MemorySearchParams), memorySearchExecute (.error e) p = .error e) ∧
    (∀ (e q : String), q.isEmpty = false →
      (memoryGraphExecute (failingGraphClient e)
        { action := .search, query := some q }).1 = .error e) ∧
    (∀ (e wid : String) (score : ℚ), wid.isEmpty = false →
      (memoryWisdomExecute (failingWisdomClient e)
        { action := .feedback, wisdom_id := some wid, score := some score }).1 = .error e) := by
  refine ⟨?_, ?_, ?_, ?_, ?_⟩
  · intro res id
    cases res <;> exact ⟨_, rfl⟩
  · intro e p
    rfl
  · intro e p
    rfl
  · intro e q hq
    simp [memoryGraphExecute, isFalsyStr, hq, failingGraphClient]
  · intro e wid score hw
    simp [memoryWisdomExecute, isFalsyStr, hw, failingWisdomClient]

/-- Witness for the amended C2 at concrete inputs: a failing `memory_graph`
search propagates the client error. -/
theorem claim_C2_only_forget_catches_witness :
    (memoryGraphExecute (failingGraphClient "connection refused")
      { action := .search, query := some "alice" }).1 = .error "connection refused" :=
  claim_C2_only_forget_catches.2.2.2.1 "connection refused" "alice" (by decide)

/-- C5: every `memory_graph` or `memory_wisdom` invocation whose action is
missing a required parameter returns a structured text response beginning
with `Error:` without throwing and without issuing any client request. -/
theorem claim_C5_missing_param_validation :
    ∀ (gc : GraphClient) (wc : WisdomClient) (gp : GraphParams) (wp : WisdomParams),
      (gp.action = .search → gp.query = none →
        validationError (memoryGraphExecute gc gp)) ∧
      (gp.action = .profile → gp.entity_id = none →
        validationError (memoryGraphExecute gc gp)) ∧
      (gp.action = .add_relationship → (gp.subject_id = none ∨ gp.predicate = none) →
        validationError (memoryGraphExecute gc gp)) ∧
      (gp.action = .add_relationship → gp.object_id = none → gp.object_value = none →
        validationError (memoryGraphExecute gc gp)) ∧
      (wp.action = .log → (wp.action_type = none ∨ wp.reasoning = none) →
        validationError (memoryWisdomExecute wc wp)) ∧
      (wp.action = .outcome → (wp.wisdom_id = none ∨ wp.outcome = none) →
        validationError (memoryWisdomExecute wc wp)) ∧
      (wp.action = .feedback → (wp.wisdom_id = none ∨ wp.score = none) →
        validationError (memoryWisdomExecute wc wp)) ∧
      (wp.action = .search → wp.query = none →
        validationError (memoryWisdomExecute wc wp)) := by
  intro gc wc gp wp
  refine ⟨?_, ?_, ?_, ?_, ?_, ?_, ?_, ?_⟩
  · intro ha hq
    exact ⟨"Error: 'query' required for search action",
      by simp [memoryGraphExecute, ha, hq, isFalsyStr], by decide,
      by simp [memoryGraphExecute, ha, hq, isFalsyStr]⟩
  · intro ha hq
    exact ⟨"Error: 'entity_id' required for profile action",
      by simp [memoryGraphExecute, ha, hq, isFalsyStr], by decide,
      by simp [memoryGraphExecute, ha, hq, isFalsyStr]⟩
  · intro ha hq
    rcases hq with hq | hq <;>
      exact ⟨"Error: 'subject_id' and 'predicate' required for add_relationship",
        by simp [memoryGraphExecute, ha, hq, isFalsyStr], by decide,
        by simp [memoryGraphExecute, ha, hq, isFalsyStr]⟩
  · intro ha h1 h2
    by_cases hsp : (isFalsyStr gp.subject_id || isFalsyStr gp.predicate) = true
    · exact ⟨"Error: 'subject_id' and 'predicate' required for add_relationship",
        by simp [memoryGraphExecute, ha, hsp], by decide,
        by simp [memoryGraphExecute, ha, hsp]⟩
    · rw [Bool.not_eq_true] at hsp
      exact ⟨"Error: either 'object_id' or 'object_value' required",
        by simp [memoryGraphExecute, ha, h1, h2, hsp,
          show isFalsyStr (none : Option String) = true from rfl], by decide,
        by simp [memoryGraphExecute, ha, h1, h2, hsp,
          show isFalsyStr (none : Option String) = true from rfl]⟩
  · intro ha hq
    rcases hq with hq | hq <;>
      exact ⟨"Error: 'action_type' and 'reasoning' required for log action",
        by simp [memoryWisdomExecute, ha, hq, isFalsyStr], by decide,
        by simp [memoryWisdomExecute, ha, hq, isFalsyStr]⟩
  · intro ha hq
    rcases hq with hq | hq <;>
      exact ⟨"Error: 'wisdom_id' and 'outcome' required",
        by simp [memoryWisdomExecute, ha, hq, isFalsyStr], by decide,
        by simp [memoryWisdomExecute, ha, hq, isFalsyStr]⟩
  · intro ha hq
    rcases hq with hq | hq <;>
      exact ⟨"Error: 'wisdom_id' and 'score' required",
        by simp [memoryWisdomExecute, ha, hq, isFalsyStr], by decide,
        by simp [memoryWisdomExecute, ha, hq, isFalsyStr]⟩
  · intro ha hq
    exact ⟨"Error: 'query' required for search action",
      by simp [memoryWisdomExecute, ha, hq, isFalsyStr], by decide,
      by simp [memoryWisdomExecute, ha, hq, isFalsyStr]⟩

/-- Witness for C5 at a concrete input: a `memory_graph` profile call without
`entity_id` is rejected with a structured error and no request. -/
theorem claim_C5_missing_param_validation_witness :
    validationError (memoryGraphExecute (failingGraphClient "down")
      { action := .profile }) :=
  ((claim_C5_missing_param_validation (failingGraphClient "down")
    (failingWisdomClient "down") { action := .profile }
    { action := .search }).2.1 rfl rfl)

/-- C7: a `memory_wisdom` feedback invocation that supplies `wisdom_id` and
`score` issues the feedback request unconditionally — exactly one request,
the feedback one, for every client behaviour, with no check that an outcome
was recorded first. -/
theorem claim_C7_feedback_unconditional :
    ∀ (client : WisdomClient) (wp : WisdomParams) (wid : String) (score : ℚ),
      wp.action = .feedback → wp.wisdom_id = some wid → wid.isEmpty = false →
      wp.score = some score →
      (memoryWisdomExecute client wp).2 = [WisdomReq.addFeedback wid score wp.notes] := by
  intro client wp wid score ha hw hne hs
  cases hc : client.addFeedback wid score wp.notes <;>
    simp [memoryWisdomExecute, ha, hw, hs, hne, isFalsyStr, hc]

/-- Witness for C7 at concrete inputs: with a failing client and no outcome
ever recorded, the feedback request is still issued. -/
theorem claim_C7_feedback_unconditional_witness :
    (memoryWisdomExecute (failingWisdomClient "down")
      { action := .feedback, wisdom_id := some "w1", score := some 3 }).2 =
    [WisdomReq.addFeedback "w1" 3 none] :=
  claim_C7_feedback_unconditional (failingWisdomClient "down")
    { action := .feedback, wisdom_id := some "w1", score := some 3 }
    "w1" 3 rfl rfl (by decide) rfl

/-- C6: when the underlying client call inside the auto-recall or
auto-capture hook fails, the hook catches the failure, logs exactly the
warning, and returns without a result — no context is prepended, no
extraction result is produced, and no exception propagates (the embedded
handlers are total functions whose error branch is the `catch` block). -/
theorem claim_C6_hooks_swallow_errors :
    ∀ (config : PluginConfig) (event event2 : AgentEvent) (e e2 : String),
      (config.autoRecall = true → isFalsyStr (extractUserMessage event) = false →
        beforeAgentStart config event (.error e) = (none, ["Auto-recall failed: " ++ e])) ∧
      (config.autoCapture = true → ∀ t, extractConversation event2 = some t →
        50 ≤ t.length →
        agentEnd config event2 (.error e2) = (["Auto-capture failed: " ++ e2], [t])) := by
  intro config event event2 e e2
  constructor
  · intro hr hm
    simp [beforeAgentStart, hr, hm]
  · intro hc t ht hlen
    simp [agentEnd, hc, ht, Nat.not_lt.mpr hlen]

/-- Witness for C6 at concrete inputs: with both hooks enabled, a concrete
event and a failing client, each hook swallows the error and logs it. -/
theorem claim_C6_hooks_swallow_errors_witness :
    beforeAgentStart DEFAULT_CONFIG
      { userMessage := some "hi" } (.error "timeout") =
      (none, ["Auto-recall failed: " ++ "timeout"]) ∧
    agentEnd DEFAULT_CONFIG
      { messages := some [⟨"user",
          .str "Please remember that I drink my coffee black every single morning."⟩] }
      (.error "timeout") =
      (["Auto-capture failed: " ++ "timeout"],
        ["user: Please remember that I drink my coffee black every single morning."]) :=
  ⟨(claim_C6_hooks_swallow_errors DEFAULT_CONFIG { userMessage := some "hi" }
      { userMessage := some "hi" } "timeout" "x").1 rfl (by decide),
    (claim_C6_hooks_swallow_errors DEFAULT_CONFIG
        { messages := some [⟨"user",
            .str "Please remember that I drink my coffee black every single morning."⟩] }
        { messages := some [⟨"user",
            .str "Please remember that I drink my coffee black every single morning."⟩] }
        "x" "timeout").2 rfl
      "user: Please remember that I drink my coffee black every single morning."
      (by decide) (by decide)⟩

/-- C10: the auto-capture hook issues no extract request when `autoCapture`
is false, when the event has no message list or no user/assistant message,
or when the conversation text is shorter than 50 characters; any text it
does send has at least 50 characters. -/
theorem claim_C10_capture_gating :
    ∀ (config : PluginConfig) (event : AgentEvent) (res : Except String Unit),
      (config.autoCapture = false → agentEnd config event res = ([], [])) ∧
      (event.messages = none → agentEnd config event res = ([], [])) ∧
      (∀ msgs, event.messages = some msgs →
        (∀ m ∈ msgs, m.role ≠ "user" ∧ m.role ≠ "assistant") →
        agentEnd config event res = ([], [])) ∧
      (∀ t, extractConversation event = some t → t.length < 50 →
        agentEnd config event res = ([], [])) ∧
      (∀ t, t ∈ (agentEnd config event res).2 → 50 ≤ t.length) := by
  intro config event res
  refine ⟨?_, ?_, ?_, ?_, ?_⟩
  · intro h
    simp [agentEnd, h]
  · intro h
    simp [agentEnd, extractConversation, h]
  · intro msgs hmsgs hall
    have hf : msgs.filter (fun m => m.role == "user" || m.role == "assistant") = [] := by
      refine List.filter_eq_nil_iff.mpr ?_
      intro m hm
      obtain ⟨h1, h2⟩ := hall m hm
      simp [beq_iff_eq, h1, h2]
    simp [agentEnd, extractConversation, hmsgs, hf]
  · intro t ht hlt
    simp [agentEnd, ht, hlt]
  · intro t ht
    by_cases hcap : config.autoCapture = false
    · simp [agentEnd, hcap] at ht
    · have hcap' : config.autoCapture = true := by
        revert hcap
        cases config.autoCapture <;> simp
      cases hec : extractConversation event with
      | none => simp [agentEnd, hcap', hec] at ht
      | some conv =>
        by_cases hlen : conv.length < 50
        · simp [agentEnd, hcap', hec, hlen] at ht
        · cases res <;> simp [agentEnd, hcap', hec, hlen] at ht <;>
            · subst ht
              exact Nat.not_lt.mp hlen

/-- Witness for C10 at concrete inputs: a short conversation is not sent. -/
theorem claim_C10_capture_gating_witness :
    agentEnd { DEFAULT_CONFIG with serverUrl := "http://127.0.0.1:18790" }
      { messages := some [⟨"user", .str "hi"⟩] } (.ok ()) = ([], []) :=
  ((claim_C10_capture_gating _ { messages := some [⟨"user", .str "hi"⟩] }
    (.ok ())).2.2.2.1 "user: hi" (by decide) (by decide))

/-- C3: storing the same content twice in succession, with the second store
within the near-duplicate threshold of the first, returns the same memory ID
both times without creating a second record; when no existing memory is
within the threshold, a new memory with `access_count = 0` is inserted. -/
theorem claim_C3_store_idempotent {E : Type} (embed : String → E)
    (dist : E → E → ℚ) (threshold : ℚ) (s : MemStoreState E) (c : String) :
    (dist (embed c) (embed c) < threshold →
      serviceStoreMemory embed dist threshold
          (serviceStoreMemory embed dist threshold s c).2 c =
        serviceStoreMemory embed dist threshold s c) ∧
    (s.records.find? (fun r => decide (dist (embed c) r.embedding < threshold)) = none →
      (serviceStoreMemory embed dist threshold s c).2.records =
        s.records ++
          [{ id := s.nextId, content := c, access_count := 0, embedding := embed c }]) := by
  constructor
  · intro h
    cases hf : s.records.find? (fun r => decide (dist (embed c) r.embedding < threshold)) with
    | some r =>
      simp [serviceStoreMemory, hf]
    | none =>
      have hnew : decide (dist (embed c) (embed c) < threshold) = true := decide_eq_true h
      simp [serviceStoreMemory, hf, List.find?_append, List.find?, hnew]
  · intro hf
    simp [serviceStoreMemory, hf]

/-- Witness for C3 at concrete inputs: with a string-length embedding and
absolute-value distance, storing "likes coffee" twice from the empty store
yields the same result as storing it once. -/
theorem claim_C3_store_idempotent_witness :
    serviceStoreMemory (fun t => (t.length : ℚ)) (fun a b => |a - b|) (1 / 20)
        (serviceStoreMemory (fun t => (t.length : ℚ)) (fun a b => |a - b|) (1 / 20)
          ⟨[], 0⟩ "likes coffee").2 "likes coffee" =
      serviceStoreMemory (fun t => (t.length : ℚ)) (fun a b => |a - b|) (1 / 20)
        ⟨[], 0⟩ "likes coffee" :=
  (claim_C3_store_idempotent (fun t => (t.length : ℚ)) (fun a b => |a - b|) (1 / 20)
    ⟨[], 0⟩ "likes coffee").1 (by norm_num)

/-- C4: from a state with no currently valid `(A, p)` relationship, adding
`(A, p, X)` and then `(A, p, Y)` with `Y ≠ X` closes the first
relationship's validity interval (`valid_to` set to the second call's time)
and opens a new one, so the profile view shows only `Y` as currently valid
under `p` — in particular at most one `(A, p, ·)` relationship is valid at a
time. -/
theorem claim_C4_relationship_versioning (s : GraphStoreState)
    (A p X Y : String) (t1 t2 : Nat)
    (hclean : currentlyValid s A p = []) (hXY : X ≠ Y) :
    (currentlyValid (serviceAddRelationship
        (serviceAddRelationship s A p X t1).2 A p Y t2).2 A p).map RelRecord.object
      = [Y] ∧
    (currentlyValid (serviceAddRelationship
        (serviceAddRelationship s A p X t1).2 A p Y t2).2 A p).length ≤ 1 ∧
    ∃ r ∈ (serviceAddRelationship
        (serviceAddRelationship s A p X t1).2 A p Y t2).2.rels,
      r.id = (serviceAddRelationship s A p X t1).1 ∧
      r.object = X ∧ r.valid_to = some t2 := by
  have hall : ∀ r ∈ s.rels, isValidFor A p r = false := by
    intro r hr
    have h := List.filter_eq_nil_iff.mp hclean r hr
    cases hb : isValidFor A p r with
    | false => rfl
    | true => exact absurd hb h
  have hfind : s.rels.find? (isValidFor A p) = none :=
    List.find?_eq_none.mpr fun r hr => by simp [hall r hr]
  have hs1 : serviceAddRelationship s A p X t1 =
      (s.nextId, ⟨s.rels ++ [⟨s.nextId, A, p, X, t1, none⟩], s.nextId + 1⟩) := by
    simp [serviceAddRelationship, hfind]
  have hvalidX : isValidFor A p (⟨s.nextId, A, p, X, t1, none⟩ : RelRecord) = true := by
    simp [isValidFor]
  have hfind2 : (s.rels ++ [(⟨s.nextId, A, p, X, t1, none⟩ : RelRecord)]).find?
      (isValidFor A p) = some ⟨s.nextId, A, p, X, t1, none⟩ := by
    rw [List.find?_append, hfind]
    simp [List.find?, hvalidX]
  have hobj : ((⟨s.nextId, A, p, X, t1, none⟩ : RelRecord).object == Y) = false := by
    simpa using hXY
  have hs2 : serviceAddRelationship (serviceAddRelationship s A p X t1).2 A p Y t2 =
      (s.nextId + 1,
        ⟨(s.rels ++ [(⟨s.nextId, A, p, X, t1, none⟩ : RelRecord)]).map
            (fun (r2 : RelRecord) =>
              if r2.id == s.nextId then { r2 with valid_to := some t2 } else r2) ++
          [⟨s.nextId + 1, A, p, Y, t2, none⟩],
          s.nextId + 1 + 1⟩) := by
    rw [hs1]
    simp [serviceAddRelationship, hfind2, hobj]
  have hmapfalse : ∀ r ∈ (s.rels ++ [(⟨s.nextId, A, p, X, t1, none⟩ : RelRecord)]).map
      (fun (r2 : RelRecord) =>
        if r2.id == s.nextId then { r2 with valid_to := some t2 } else r2),
      isValidFor A p r = false := by
    intro r hr
    rw [List.mem_map] at hr
    obtain ⟨r0, hr0, hr0eq⟩ := hr
    subst hr0eq
    rcases List.mem_append.mp hr0 with h0 | h0
    · by_cases hid : (r0.id == s.nextId) = true
      · simp [hid, isValidFor]
      · rw [Bool.not_eq_true] at hid
        simpa [hid] using hall r0 h0
    · rw [List.mem_singleton] at h0
      subst h0
      simp [isValidFor]
  have hfilter : currentlyValid (serviceAddRelationship
      (serviceAddRelationship s A p X t1).2 A p Y t2).2 A p =
      [⟨s.nextId + 1, A, p, Y, t2, none⟩] := by
    rw [hs2]
    show List.filter _ _ = _
    rw [List.filter_append, List.filter_eq_nil_iff.mpr
      (fun r hr => by simp [hmapfalse r hr])]
    simp [isValidFor]
  refine ⟨?_, ?_, ?_⟩
  · rw [hfilter]
    rfl
  · rw [hfilter]
    simp
  · refine ⟨⟨s.nextId, A, p, X, t1, some t2⟩, ?_, by rw [hs1], rfl, rfl⟩
    rw [hs2]
    apply List.mem_append_left
    have hx : (⟨s.nextId, A, p, X, t1, none⟩ : RelRecord) ∈
        s.rels ++ [(⟨s.nextId, A, p, X, t1, none⟩ : RelRecord)] :=
      List.mem_append_right _ (List.mem_singleton.mpr rfl)
    have hmem := List.mem_map_of_mem
      (fun (r2 : RelRecord) =>
        if r2.id == s.nextId then { r2 with valid_to := some t2 } else r2) hx
    simp only [beq_self_eq_true, if_pos] at hmem
    exact hmem

/-- Witness for C4 at concrete inputs: adding `works_on ProjectX` then
`works_on ProjectY` for the same subject leaves only `ProjectY` currently
valid. -/
theorem claim_C4_relationship_versioning_witness :
    (currentlyValid (serviceAddRelationship
        (serviceAddRelationship ⟨[], 0⟩ "alice" "works_on" "ProjectX" 1).2
        "alice" "works_on" "ProjectY" 2).2 "alice" "works_on").map RelRecord.object
      = ["ProjectY"] :=
  (claim_C4_relationship_versioning ⟨[], 0⟩ "alice" "works_on" "ProjectX" "ProjectY"
    1 2 rfl (by decide)).1

/-- Helper: the first character surviving `dropWhile (· == '/')` is not a
slash. -/
theorem head?_dropWhile_slash (l : List Char) :
    ∀ a, (l.dropWhile fun c => c == '/').head? = some a → (a == '/') = false := by
  induction l with
  | nil =>
    intro a h
    simp [List.dropWhile] at h
  | cons x xs ih =>
    intro a h
    rw [List.dropWhile_cons] at h
    split at h
    · exact ih a h
    · rename_i hx
      rw [Bool.not_eq_true] at hx
      rw [List.head?_cons, Option.some.injEq] at h
      rw [← h]
      exact hx

/-- Helper: stripping trailing slashes leaves no trailing slash. -/
theorem stripTrailingSlashes_no_trailing (s : String) :
    (stripTrailingSlashes s).data.getLast? ≠ some '/' := by
  intro h
  have hd : (stripTrailingSlashes s).data =
      (s.data.reverse.dropWhile fun c => c == '/').reverse := rfl
  rw [hd, List.getLast?_reverse] at h
  have hne := head?_dropWhile_slash s.data.reverse '/' h
  simp at hne

/-- Helper: a string is its trailing-slash-stripped form followed by some run
of slashes — what `replace(/\/+$/, "")` removes. -/
theorem stripTrailingSlashes_decomposition (s : String) :
    ∃ k, s = stripTrailingSlashes s ++ ⟨List.replicate k '/'⟩ := by
  refine ⟨(s.data.reverse.takeWhile fun c => c == '/').length, ?_⟩
  apply String.ext
  rw [String.data_append]
  have hd : (stripTrailingSlashes s).data =
      (s.data.reverse.dropWhile fun c => c == '/').reverse := rfl
  rw [hd]
  have htake : (s.data.reverse.takeWhile fun c => c == '/') =
      List.replicate (s.data.reverse.takeWhile fun c => c == '/').length '/' := by
    rw [List.eq_replicate_iff]
    exact ⟨rfl, fun b hb => by simpa using List.mem_takeWhile_imp hb⟩
  conv_lhs => rw [← List.reverse_reverse s.data,
    ← List.takeWhile_append_dropWhile (fun c => c == '/') s.data.reverse]
  rw [List.reverse_append]
  congr 1
  show _ = List.replicate _ '/'
  rw [htake, List.reverse_replicate]
  rw [← htake, htake, List.length_replicate]

/-- C9: every client operation's request goes to a path beginning with `/v1`,
appended to the configured base URL with trailing slashes stripped (the
stripped form has no trailing slash and differs from `serverUrl` only by a
run of trailing slashes), and the headers carry `X-Maasv-Key` exactly when
an apiKey is configured (JavaScript-truthy, mirroring `if (config.apiKey)`). -/
theorem claim_C9_request_shape :
    ∀ (config : PluginConfig) (op : ClientOp),
      (∃ rest, op.path = "/v1" ++ rest) ∧
      requestUrl config op = stripTrailingSlashes config.serverUrl ++ op.path ∧
      ((clientHeaders config).any fun h => h.1 == "X-Maasv-Key") = hasApiKey config ∧
      (stripTrailingSlashes config.serverUrl).data.getLast? ≠ some '/' ∧
      ∃ k, config.serverUrl = stripTrailingSlashes config.serverUrl ++
        ⟨List.replicate k '/'⟩ := by
  intro config op
  refine ⟨?_, rfl, ?_, stripTrailingSlashes_no_trailing _,
    stripTrailingSlashes_decomposition _⟩
  · cases op with
    | storeMemory req => exact ⟨"/memory/store", rfl⟩
    | searchMemories req => exact ⟨"/memory/search", rfl⟩
    | getContext req => exact ⟨"/memory/context", rfl⟩
    | getMemory m => exact ⟨"/memory/" ++ m, by rw [← String.append_assoc]; rfl⟩
    | deleteMemory m => exact ⟨"/memory/" ++ m, by rw [← String.append_assoc]; rfl⟩
    | supersedeMemory a b => exact ⟨"/memory/supersede", rfl⟩
    | extract t topic => exact ⟨"/extract", rfl⟩
    | findOrCreateEntity a b => exact ⟨"/graph/entities", rfl⟩
    | searchEntities a b c => exact ⟨"/graph/entities/search", rfl⟩
    | getEntityProfile eid => exact ⟨"/graph/entities/" ++ eid, by rw [← String.append_assoc]; rfl⟩
    | addRelationship a b c d => exact ⟨"/graph/relationships", rfl⟩
    | logReasoning a b => exact ⟨"/wisdom/log", rfl⟩
    | recordOutcome w oc d =>
      exact ⟨"/wisdom/" ++ w ++ "/outcome",
        by rw [← String.append_assoc, ← String.append_assoc]; rfl⟩
    | addFeedback w sc n =>
      exact ⟨"/wisdom/" ++ w ++ "/feedback",
        by rw [← String.append_assoc, ← String.append_assoc]; rfl⟩
    | searchWisdom a b => exact ⟨"/wisdom/search", rfl⟩
    | health => exact ⟨"/health", rfl⟩
    | stats => exact ⟨"/stats", rfl⟩
  · cases hk : config.apiKey with
    | none => simp [clientHeaders, hasApiKey, hk]
    | some k =>
      by_cases he : k.isEmpty = true <;> simp [clientHeaders, hasApiKey, hk, he]

/-- Witness for C9 at concrete inputs: with a trailing-slash `serverUrl`, the
health request URL is the stripped base followed by the path. -/
theorem claim_C9_request_shape_witness :
    requestUrl
      { serverUrl := "http://127.0.0.1:18790//", autoRecall := true,
        autoCapture := true, maxRecallResults := 5, maxRecallTokens := 2000,
        enableGraph := true, enableWisdom := false } .health =
      stripTrailingSlashes "http://127.0.0.1:18790//" ++ ClientOp.path .health :=
  (claim_C9_request_shape
    { serverUrl := "http://127.0.0.1:18790//", autoRecall := true,
      autoCapture := true, maxRecallResults := 5, maxRecallTokens := 2000,
      enableGraph := true, enableWisdom := false } .health).2.1

end OpenclawMaasv
